import Mathlib

/-!
Verification of the mcp2515 SPI CAN controller driver (`src/mcp2515.c`).

The development shallowly embeds the driver core:
* the frame codec (`mcp2515_set_txbuf` and the frame-construction part of
  `mcp2515_read_rxb_complete`),
* the pending-work flags and the asynchronous command sequencer
  (the `mcp2515_*_complete` SPI completion callbacks, `mcp2515_interrupt`
  and `mcp2515_start_xmit`).

Machine integers (`u8`, `u32`, `canid_t`) are modelled as `Nat` with explicit
`% 256` where the C code truncates to a byte.  The single outstanding SPI
message is modelled as a list `inflight` of issued-but-not-completed commands:
`mcp2515_spi_async` appends to it, and a completion event pops the head and
runs the corresponding callback.  Interleaving of the two producer contexts
(IRQ and network xmit) with the completion context is modelled by the
nondeterministic step relation `Step`; the spinlock-protected flag updates of
the C code are atomic single steps here, which is exactly what the lock
guarantees.
-/

/-! ## Register and flag constants (from the `#define`s in mcp2515.c and
`linux/can.h`) -/

def CAN_EFF_FLAG : Nat := 0x80000000
def CAN_RTR_FLAG : Nat := 0x40000000
def CAN_EFF_MASK : Nat := 0x1fffffff
def CAN_SFF_MASK : Nat := 0x7ff

def RXBSIDL_SRR : Nat := 0x10
def RXBSIDL_IDE : Nat := 0x08
def RXBDLC_RTR : Nat := 0x40

def CANINTF_ERRIF : Nat := 0x20
def CANINTF_TX0IF : Nat := 0x04
def CANINTF_RX1IF : Nat := 0x02
def CANINTF_RX0IF : Nat := 0x01

def EFLG_RX1OVR : Nat := 0x80
def EFLG_RX0OVR : Nat := 0x40

/-! ## CAN frames (`struct can_frame`) -/

/-- A `struct can_frame`: `can_id` is the 32-bit id word with the EFF/RTR
flag bits embedded, `can_dlc` the data length code, `data` the payload
array. -/
structure CanFrame where
  can_id : Nat
  can_dlc : Nat
  data : List Nat
deriving DecidableEq, Repr

/-- A frame accepted by the upper layers: 32-bit id word, dlc at most 8,
an 8-byte payload array, and a standard (non-EFF) id fits in 11 bits. -/
def ValidFrame (f : CanFrame) : Prop :=
  f.can_id < 2 ^ 32 ∧ f.can_dlc ≤ 8 ∧ f.data.length = 8 ∧
    (f.can_id &&& CAN_EFF_FLAG = 0 → f.can_id &&& CAN_EFF_MASK ≤ CAN_SFF_MASK)

instance (f : CanFrame) : Decidable (ValidFrame f) := by
  unfold ValidFrame; infer_instance

/-! ## Frame codec -/

/-- The kernel helper `get_can_dlc`: clamp a received dlc to at most 8. -/
def get_can_dlc (dlc : Nat) : Nat := min dlc 8

/-- mcp2515_set_txbuf: the bytes written to the chip starting at TXB0SIDH
for an skb's `can_frame` (the return value of the C function is the length
`5 + can_dlc`, which here is the length of the returned list).  Each byte
assignment truncates to `u8` (`% 256`). -/
def mcp2515_set_txbuf (frame : CanFrame) : List Nat :=
  (if frame.can_id &&& CAN_EFF_FLAG ≠ 0 then
    [frame.can_id >>> 21 % 256,
     ((frame.can_id >>> 13 &&& 0xe0) ||| 8 ||| (frame.can_id >>> 16 &&& 3)) % 256,
     frame.can_id >>> 8 % 256,
     frame.can_id % 256]
  else
    [frame.can_id >>> 3 % 256,
     frame.can_id <<< 5 % 256,
     0,
     0]) ++
  [if frame.can_id &&& CAN_RTR_FLAG ≠ 0 then (frame.can_dlc ||| 0x40) % 256
   else frame.can_dlc % 256] ++
  frame.data.take frame.can_dlc

/-- Frame construction of mcp2515_read_rxb_complete: `buf` is the 14-byte
SPI receive buffer, `buf[0]` being the byte clocked in while the read
instruction was shifted out, `buf[1..4]` RXBnSIDH..RXBnEID0, `buf[5]`
RXBnDLC and `buf[6..13]` the data bytes. -/
def mcp2515_rxb_frame (buf : List Nat) : CanFrame :=
  let b : Nat → Nat := fun i => buf.getD i 0
  let eid :=
    if b 2 &&& RXBSIDL_IDE ≠ 0 then
      let id := b 1 <<< 21 ||| (b 2 &&& 0xe0) <<< 13 ||| (b 2 &&& 3) <<< 16 |||
        b 3 <<< 8 ||| b 4 ||| CAN_EFF_FLAG
      if b 5 &&& RXBDLC_RTR ≠ 0 then id ||| CAN_RTR_FLAG else id
    else
      let id := b 1 <<< 3 ||| b 2 >>> 5
      if b 2 &&& RXBSIDL_SRR ≠ 0 then id ||| CAN_RTR_FLAG else id
  let dlc := get_can_dlc (b 5 &&& 0xf)
  { can_id := eid, can_dlc := dlc, data := (buf.drop 6).take dlc }

/-! ## Commands and the chip context -/

/-- The SPI commands the sequencer can have in flight, tagged by completion
callback.  The bit-modify commands record the mask byte computed at issue
time (`buf[2]`). -/
inductive Cmd where
  | readFlags
  | readRxb0
  | readRxb1
  | clearCanintf (mask : Nat)
  | clearEflg (mask : Nat)
  | loadTxb0
  | rtsTxb0
deriving DecidableEq, Repr

/-- Return status of `ndo_start_xmit`. -/
inductive NetdevTxStatus where
  | tx_ok
  | tx_busy
deriving DecidableEq, Repr

/-- The `dev->stats` counters touched by this driver. -/
structure NetStats where
  rx_packets : Nat
  rx_bytes : Nat
  rx_dropped : Nat
  rx_over_errors : Nat
  tx_packets : Nat
  tx_bytes : Nat
deriving DecidableEq, Repr

/-- The `mcp2515_priv` context plus the observable interactions:
`delivered` records the frames handed to `netif_rx`, `echoed` the transmit
completions reported through the echo skb mechanism, `queueStopped` the
netif queue state, and `inflight` the SPI commands issued and not yet
completed. -/
structure DevState where
  canintf : Nat
  eflg : Nat
  skb : Option CanFrame
  busy : Bool
  interrupt : Bool
  transmit : Bool
  stats : NetStats
  queueStopped : Bool
  delivered : List CanFrame
  echoed : List CanFrame
  inflight : List Cmd
deriving DecidableEq, Repr

/-- State after attach/up: flags all clear, no skb, queue awake, nothing in
flight. -/
def initState : DevState :=
  { canintf := 0, eflg := 0, skb := none, busy := false, interrupt := false,
    transmit := false,
    stats := { rx_packets := 0, rx_bytes := 0, rx_dropped := 0,
               rx_over_errors := 0, tx_packets := 0, tx_bytes := 0 },
    queueStopped := false, delivered := [], echoed := [], inflight := [] }

/-- mcp2515_spi_async: submit one SPI message; it stays in flight until its
completion callback runs. -/
def mcp2515_spi_async (c : Cmd) (s : DevState) : DevState :=
  { s with inflight := s.inflight ++ [c] }

/-! ## Command issuing functions -/

/-- mcp2515_read_flags: read CANINTF and EFLG in one burst. -/
def mcp2515_read_flags (s : DevState) : DevState :=
  mcp2515_spi_async Cmd.readFlags s

/-- mcp2515_read_rxb0: read receive buffer 0 (instruction 0x90). -/
def mcp2515_read_rxb0 (s : DevState) : DevState :=
  mcp2515_spi_async Cmd.readRxb0 s

/-- mcp2515_read_rxb1: read receive buffer 1 (instruction 0x94). -/
def mcp2515_read_rxb1 (s : DevState) : DevState :=
  mcp2515_spi_async Cmd.readRxb1 s

/-- mcp2515_clear_canintf: bit-modify CANINTF with mask
`canintf & ~(CANINTF_RX0IF | CANINTF_RX1IF)` (u8 complement written as
`0xff ^^^ _`) and data 0. -/
def mcp2515_clear_canintf (s : DevState) : DevState :=
  mcp2515_spi_async
    (Cmd.clearCanintf (s.canintf &&& (0xff ^^^ (CANINTF_RX0IF ||| CANINTF_RX1IF)))) s

/-- mcp2515_clear_eflg: bit-modify EFLG with mask `eflg` and data 0. -/
def mcp2515_clear_eflg (s : DevState) : DevState :=
  mcp2515_spi_async (Cmd.clearEflg s.eflg) s

/-- mcp2515_load_txb0: send the "load transmit buffer 0" message. -/
def mcp2515_load_txb0 (s : DevState) : DevState :=
  mcp2515_spi_async Cmd.loadTxb0 s

/-- mcp2515_rts_txb0: send the "request to send transmit buffer 0"
message. -/
def mcp2515_rts_txb0 (s : DevState) : DevState :=
  mcp2515_spi_async Cmd.rtsTxb0 s

/-! ## Completion callbacks -/

/-- mcp2515_read_flags_complete: store the CANINTF/EFLG reply bytes, then
decide the next command; the final `else` is the only place that clears
`busy`. -/
def mcp2515_read_flags_complete (canintf eflg : Nat) (s0 : DevState) : DevState :=
  let s := { s0 with canintf := canintf, eflg := eflg }
  if canintf &&& CANINTF_RX0IF ≠ 0 then
    mcp2515_read_rxb0 s
  else if canintf &&& CANINTF_RX1IF ≠ 0 then
    mcp2515_read_rxb1 s
  else if canintf ≠ 0 then
    mcp2515_clear_canintf s
  else if s.transmit then
    mcp2515_load_txb0 { s with transmit := false }
  else if s.interrupt then
    mcp2515_read_flags { s with interrupt := false }
  else
    { s with busy := false }

/-- mcp2515_read_rxb_complete: allocate an skb (`allocOk` models whether
`alloc_can_skb` succeeds), on failure count the drop and return, otherwise
decode the buffer, count the packet and hand the frame to `netif_rx`. -/
def mcp2515_read_rxb_complete (allocOk : Bool) (buf : List Nat) (s : DevState) :
    DevState :=
  if !allocOk then
    { s with stats := { s.stats with rx_dropped := s.stats.rx_dropped + 1 } }
  else
    let frame := mcp2515_rxb_frame buf
    { s with
      stats :=
        { s.stats with
          rx_packets := s.stats.rx_packets + 1
          rx_bytes := s.stats.rx_bytes + frame.can_dlc }
      delivered := s.delivered ++ [frame] }

/-- mcp2515_transmit_or_read_flags: load the pending frame if a
transmission is pending, else re-read the flags. -/
def mcp2515_transmit_or_read_flags (s : DevState) : DevState :=
  if s.transmit then
    mcp2515_load_txb0 { s with transmit := false }
  else
    mcp2515_read_flags s

/-- mcp2515_read_rxb0_complete: process the buffer, then read receive
buffer 1 if its interrupt flag was set in the last flags read, else fall
through to transmit-or-poll. -/
def mcp2515_read_rxb0_complete (allocOk : Bool) (buf : List Nat) (s0 : DevState) :
    DevState :=
  let s := mcp2515_read_rxb_complete allocOk buf s0
  if s.canintf &&& CANINTF_RX1IF ≠ 0 then
    mcp2515_read_rxb1 s
  else
    mcp2515_transmit_or_read_flags s

/-- mcp2515_read_rxb1_complete: process the buffer, then always
transmit-or-poll. -/
def mcp2515_read_rxb1_complete (allocOk : Bool) (buf : List Nat) (s0 : DevState) :
    DevState :=
  mcp2515_transmit_or_read_flags (mcp2515_read_rxb_complete allocOk buf s0)

/-- mcp2515_clear_canintf_complete: if TX0IF was set in the snapshot,
report the echo / tx stats for the skb in the slot (if any), free the slot
and wake the netif queue; then clear EFLG if it was nonzero, else re-read
the flags. -/
def mcp2515_clear_canintf_complete (s0 : DevState) : DevState :=
  let s :=
    if s0.canintf &&& CANINTF_TX0IF ≠ 0 then
      let s1 :=
        match s0.skb with
        | some f =>
          { s0 with
            stats :=
              { s0.stats with
                tx_bytes := s0.stats.tx_bytes + f.can_dlc
                tx_packets := s0.stats.tx_packets + 1 }
            echoed := s0.echoed ++ [f] }
        | none => s0
      { s1 with skb := none, queueStopped := false }
    else s0
  if s.eflg ≠ 0 then
    mcp2515_clear_eflg s
  else
    mcp2515_read_flags s

/-- mcp2515_clear_eflg_complete: count a receive overflow if either
overflow bit was set in the EFLG snapshot (a single increment even when
both are set), then re-read the flags. -/
def mcp2515_clear_eflg_complete (s0 : DevState) : DevState :=
  let s :=
    if s0.eflg &&& (EFLG_RX0OVR ||| EFLG_RX1OVR) ≠ 0 then
      { s0 with stats :=
        { s0.stats with rx_over_errors := s0.stats.rx_over_errors + 1 } }
    else s0
  mcp2515_read_flags s

/-- mcp2515_load_txb0_complete: request-to-send the loaded buffer. -/
def mcp2515_load_txb0_complete (s : DevState) : DevState :=
  mcp2515_rts_txb0 s

/-- mcp2515_rts_txb0_complete: re-read the flags. -/
def mcp2515_rts_txb0_complete (s : DevState) : DevState :=
  mcp2515_read_flags s

/-! ## Producers -/

/-- mcp2515_interrupt: under the lock, if busy just note the pending
interrupt, else claim busy; the claimant issues the flags read. -/
def mcp2515_interrupt (s : DevState) : DevState :=
  if s.busy then
    { s with interrupt := true }
  else
    mcp2515_read_flags { s with busy := true }

/-- mcp2515_start_xmit: stop the netif queue and store the skb in the slot,
then under the lock: if busy just note the pending transmission, else claim
busy; the claimant loads the transmit buffer.  Always returns
NETDEV_TX_OK. -/
def mcp2515_start_xmit (skb : CanFrame) (s0 : DevState) :
    NetdevTxStatus × DevState :=
  let s := { s0 with queueStopped := true, skb := some skb }
  if s.busy then
    (NetdevTxStatus.tx_ok, { s with transmit := true })
  else
    (NetdevTxStatus.tx_ok, mcp2515_load_txb0 { s with busy := true })

/-! ## The interleaving semantics -/

/-- Dispatch one SPI completion: the callback registered for the completed
command runs with the reply data (`canintf`/`eflg` for the flags read,
`allocOk`/`buf` for the buffer reads). -/
def completeCmd (c : Cmd) (canintf eflg : Nat) (allocOk : Bool)
    (buf : List Nat) (s : DevState) : DevState :=
  match c with
  | Cmd.readFlags => mcp2515_read_flags_complete canintf eflg s
  | Cmd.readRxb0 => mcp2515_read_rxb0_complete allocOk buf s
  | Cmd.readRxb1 => mcp2515_read_rxb1_complete allocOk buf s
  | Cmd.clearCanintf _ => mcp2515_clear_canintf_complete s
  | Cmd.clearEflg _ => mcp2515_clear_eflg_complete s
  | Cmd.loadTxb0 => mcp2515_load_txb0_complete s
  | Cmd.rtsTxb0 => mcp2515_rts_txb0_complete s

/-- One atomic step of the system: an interrupt arrival, a frame
submission, or the completion of the SPI command at the head of the
channel (reply register bytes are arbitrary `u8` values). -/
inductive Step : DevState → DevState → Prop where
  | irq (s : DevState) : Step s (mcp2515_interrupt s)
  | xmit (f : CanFrame) (s : DevState) : Step s (mcp2515_start_xmit f s).2
  | complete (c : Cmd) (rest : List Cmd) (canintf eflg : Nat) (allocOk : Bool)
      (buf : List Nat) (s : DevState)
      (hc : s.inflight = c :: rest)
      (hcan : canintf < 256) (hefl : eflg < 256) :
      Step s (completeCmd c canintf eflg allocOk buf { s with inflight := rest })

/-- States reachable from the just-attached device. -/
inductive Reachable : DevState → Prop where
  | init : Reachable initState
  | step {s t : DevState} : Reachable s → Step s t → Reachable t

/-- Sequencer invariant: the SPI command channel holds at most one
outstanding command, and it is empty whenever `busy` is clear. -/
def SeqInv (s : DevState) : Prop :=
  s.inflight.length ≤ 1 ∧ (s.busy = false → s.inflight = [])

/-- A sample standard data frame (id 0x123, 3 data bytes). -/
def sampleFrame : CanFrame :=
  { can_id := 0x123, can_dlc := 3, data := [1, 2, 3, 4, 5, 6, 7, 8] }

/-- A standard remote frame: 11-bit id with the RTR flag bit set. -/
def stdRemoteFrame : CanFrame :=
  { can_id := 0x40000123, can_dlc := 0, data := [0, 0, 0, 0, 0, 0, 0, 0] }

/-- An extended remote frame (EFF and RTR flag bits set). -/
def extRemoteFrame : CanFrame :=
  { can_id := 0xdeadbeef, can_dlc := 5, data := [9, 8, 7, 6, 5, 4, 3, 2] }

/-- A context in which the flags snapshot shows TX0IF and the transmit
slot still holds the sent skb (the normal transmit-complete situation). -/
def stateTxDone : DevState :=
  { initState with
    canintf := CANINTF_TX0IF
    skb := some sampleFrame
    busy := true
    queueStopped := true }

/-- A busy context with a frame in the transmit slot and a flags read in
flight. -/
def stateBusyTx : DevState :=
  { initState with busy := true, skb := some sampleFrame }

/-- A context whose EFLG snapshot has both receive-overflow bits set. -/
def stateBothOvr : DevState :=
  { initState with eflg := EFLG_RX0OVR ||| EFLG_RX1OVR, busy := true }

/-- A context with TX0IF set in the flags snapshot but an empty transmit
slot. -/
def stateTxDoneNoSkb : DevState :=
  { initState with
    canintf := CANINTF_TX0IF
    queueStopped := true
    busy := true }

/-! ## Bit-level helper lemmas for the codec -/

theorem testBit_mod_256 (x i : Nat) :
    (x % 256).testBit i = (decide (i < 8) && x.testBit i) := by
  rw [show (256 : Nat) = 2 ^ 8 from rfl, Nat.testBit_mod_two_pow]

theorem shiftLeft_lt {x k m e : Nat} (hx : x < m) (hm : m * 2 ^ k ≤ 2 ^ e) :
    x <<< k < 2 ^ e := by
  rw [Nat.shiftLeft_eq]
  calc x * 2 ^ k < m * 2 ^ k := Nat.mul_lt_mul_of_pos_right hx (by positivity)
    _ ≤ 2 ^ e := hm

theorem and_pow_of_ne {x k : Nat} (h : x &&& 2 ^ k ≠ 0) : x &&& 2 ^ k = 2 ^ k := by
  rw [Nat.and_two_pow] at h ⊢
  cases hx : x.testBit k
  · rw [hx] at h
    simp at h
  · simp

theorem and_eff_of_ne {x : Nat} (h : x &&& 0x80000000 ≠ 0) :
    x &&& 0x80000000 = 0x80000000 := by
  have h31 : (0x80000000 : Nat) = 2 ^ 31 := by norm_num
  rw [h31] at h ⊢
  exact and_pow_of_ne h

theorem and_rtr_of_ne {x : Nat} (h : x &&& 0x40000000 ≠ 0) :
    x &&& 0x40000000 = 0x40000000 := by
  have h30 : (0x40000000 : Nat) = 2 ^ 30 := by norm_num
  rw [h30] at h ⊢
  exact and_pow_of_ne h

theorem ide_bit_set (a b : Nat) : ((a ||| 8 ||| b) % 256) &&& 8 = 8 := by
  apply Nat.eq_of_testBit_eq
  intro i
  simp only [Nat.testBit_land, testBit_mod_256, Nat.testBit_lor,
    show (8 : Nat) = 2 ^ 3 from rfl, Nat.testBit_two_pow]
  rcases eq_or_ne i 3 with rfl | h
  · simp
  · simp [Ne.symm h]

theorem std_sidl_low_clear (n : Nat) (k : Nat) (hk : k < 5) :
    (n <<< 5 % 256) &&& 2 ^ k = 0 := by
  apply Nat.eq_of_testBit_eq
  intro i
  simp only [Nat.testBit_land, testBit_mod_256, Nat.testBit_shiftLeft,
    Nat.testBit_two_pow, Nat.zero_testBit]
  rcases eq_or_ne k i with rfl | h
  · have h5 : ¬ (k ≥ 5) := by omega
    simp [h5]
  · simp [h]

theorem std_sidl_ide (n : Nat) : (n <<< 5 % 256) &&& 8 = 0 := by
  have := std_sidl_low_clear n 3 (by norm_num)
  simpa using this

theorem std_sidl_srr (n : Nat) : (n <<< 5 % 256) &&& 16 = 0 := by
  have := std_sidl_low_clear n 4 (by norm_num)
  simpa using this

theorem dlc_readback_rtr (d : Nat) (hd : d ≤ 8) :
    ((d ||| 0x40) % 256) &&& 0xf = d := by
  interval_cases d <;> decide

theorem dlc_readback (d : Nat) (hd : d ≤ 8) : (d % 256) &&& 0xf = d := by
  interval_cases d <;> decide

theorem dlc_rtr_bit (d : Nat) (hd : d ≤ 8) :
    ((d ||| 0x40) % 256) &&& 0x40 = 0x40 := by
  interval_cases d <;> decide

theorem dlc_no_rtr_bit (d : Nat) (hd : d ≤ 8) : (d % 256) &&& 0x40 = 0 := by
  interval_cases d <;> decide

set_option maxHeartbeats 1000000 in
theorem extRoundtripId (n : Nat) :
    ((n >>> 21 % 256) <<< 21 |||
      ((((n >>> 13 &&& 0xe0) ||| 8 ||| (n >>> 16 &&& 3)) % 256) &&& 0xe0) <<< 13 |||
      ((((n >>> 13 &&& 0xe0) ||| 8 ||| (n >>> 16 &&& 3)) % 256) &&& 3) <<< 16 |||
      (n >>> 8 % 256) <<< 8 ||| (n % 256)) = n &&& 0x1fffffff := by
  apply Nat.eq_of_testBit_eq
  intro i
  rcases Nat.lt_or_ge i 29 with hi | hi
  · interval_cases i <;>
    · simp only [Nat.testBit_lor, Nat.testBit_land, Nat.testBit_shiftLeft,
        Nat.testBit_shiftRight, testBit_mod_256]
      rw [Bool.eq_iff_iff]
      simp only [Nat.testBit_to_div_mod, Bool.or_eq_true, Bool.and_eq_true,
        decide_eq_true_eq]
      norm_num
      try omega
  · have hL : ((n >>> 21 % 256) <<< 21 |||
      ((((n >>> 13 &&& 0xe0) ||| 8 ||| (n >>> 16 &&& 3)) % 256) &&& 0xe0) <<< 13 |||
      ((((n >>> 13 &&& 0xe0) ||| 8 ||| (n >>> 16 &&& 3)) % 256) &&& 3) <<< 16 |||
      (n >>> 8 % 256) <<< 8 ||| (n % 256)) < 2 ^ 29 := by
      have b0 : n >>> 21 % 256 < 256 := Nat.mod_lt _ (by norm_num)
      have b1 : (((n >>> 13 &&& 0xe0) ||| 8 ||| (n >>> 16 &&& 3)) % 256) &&& 0xe0
          < 225 := Nat.lt_succ_of_le Nat.and_le_right
      have b2 : (((n >>> 13 &&& 0xe0) ||| 8 ||| (n >>> 16 &&& 3)) % 256) &&& 3
          < 4 := Nat.lt_succ_of_le Nat.and_le_right
      have b3 : n >>> 8 % 256 < 256 := Nat.mod_lt _ (by norm_num)
      have b4 : n % 256 < 2 ^ 29 :=
        lt_of_lt_of_le (Nat.mod_lt _ (by norm_num)) (by norm_num)
      exact Nat.or_lt_two_pow
        (Nat.or_lt_two_pow
          (Nat.or_lt_two_pow
            (Nat.or_lt_two_pow (shiftLeft_lt b0 (by norm_num))
              (shiftLeft_lt b1 (by norm_num)))
            (shiftLeft_lt b2 (by norm_num)))
          (shiftLeft_lt b3 (by norm_num)))
        b4
    have hR : n &&& 0x1fffffff < 2 ^ 29 := Nat.and_lt_two_pow _ (by norm_num)
    have he : (2 : Nat) ^ 29 ≤ 2 ^ i := Nat.pow_le_pow_right (by norm_num) hi
    rw [Nat.testBit_lt_two_pow (lt_of_lt_of_le hL he),
        Nat.testBit_lt_two_pow (lt_of_lt_of_le hR he)]

theorem stdRoundtripId (n : Nat) :
    ((n >>> 3 % 256) <<< 3 ||| (n <<< 5 % 256) >>> 5) = n &&& 0x7ff := by
  apply Nat.eq_of_testBit_eq
  intro i
  rcases Nat.lt_or_ge i 11 with hi | hi
  · interval_cases i <;>
    · simp only [Nat.testBit_lor, Nat.testBit_land, Nat.testBit_shiftLeft,
        Nat.testBit_shiftRight, testBit_mod_256]
      rw [Bool.eq_iff_iff]
      simp only [Nat.testBit_to_div_mod, Bool.or_eq_true, Bool.and_eq_true,
        decide_eq_true_eq]
      norm_num
      try omega
  · have hL : ((n >>> 3 % 256) <<< 3 ||| (n <<< 5 % 256) >>> 5) < 2 ^ 11 := by
      have b0 : n >>> 3 % 256 < 256 := Nat.mod_lt _ (by norm_num)
      have b1 : (n <<< 5 % 256) >>> 5 < 2 ^ 11 := by
        have hm : n <<< 5 % 256 < 256 := Nat.mod_lt _ (by norm_num)
        calc (n <<< 5 % 256) >>> 5 ≤ n <<< 5 % 256 := by
              rw [Nat.shiftRight_eq_div_pow]; exact Nat.div_le_self _ _
          _ < 2 ^ 11 := by omega
      refine Nat.or_lt_two_pow ?_ b1
      rw [Nat.shiftLeft_eq]
      calc n >>> 3 % 256 * 2 ^ 3 < 256 * 2 ^ 3 :=
            Nat.mul_lt_mul_of_pos_right b0 (by norm_num)
        _ ≤ 2 ^ 11 := by norm_num
    have hR : n &&& 0x7ff < 2 ^ 11 := Nat.and_lt_two_pow _ (by norm_num)
    have he : (2 : Nat) ^ 11 ≤ 2 ^ i := Nat.pow_le_pow_right (by norm_num) hi
    rw [Nat.testBit_lt_two_pow (lt_of_lt_of_le hL he),
        Nat.testBit_lt_two_pow (lt_of_lt_of_le hR he)]

theorem and_sff_eq_and_eff (n : Nat) (h : n &&& 0x1fffffff ≤ 0x7ff) :
    n &&& 0x7ff = n &&& 0x1fffffff := by
  apply Nat.eq_of_testBit_eq
  intro i
  rcases Nat.lt_or_ge i 11 with hi | hi
  · simp only [Nat.testBit_land]
    congr 1
    interval_cases i <;> decide
  · have he : (2 : Nat) ^ 11 ≤ 2 ^ i := Nat.pow_le_pow_right (by norm_num) hi
    have hL : n &&& 0x7ff < 2 ^ i :=
      lt_of_le_of_lt Nat.and_le_right (lt_of_lt_of_le (by norm_num) he)
    have hR : n &&& 0x1fffffff < 2 ^ i :=
      lt_of_le_of_lt h (lt_of_lt_of_le (by norm_num) he)
    rw [Nat.testBit_lt_two_pow hL, Nat.testBit_lt_two_pow hR]

theorem cEM : (0x80000000 : Nat) &&& 0x1fffffff = 0 := by decide

theorem cRM : (0x40000000 : Nat) &&& 0x1fffffff = 0 := by decide

theorem cMM : (0x1fffffff : Nat) &&& 0x1fffffff = 0x1fffffff := by decide

theorem cEE : (0x80000000 : Nat) &&& 0x80000000 = 0x80000000 := by decide

theorem cRE : (0x40000000 : Nat) &&& 0x80000000 = 0 := by decide

theorem cME : (0x1fffffff : Nat) &&& 0x80000000 = 0 := by decide

theorem cER : (0x80000000 : Nat) &&& 0x40000000 = 0 := by decide

theorem cRR : (0x40000000 : Nat) &&& 0x40000000 = 0x40000000 := by decide

theorem cMR : (0x1fffffff : Nat) &&& 0x40000000 = 0 := by decide


/-! ## Round-trip of the frame codec -/

/-- C3 (amended): decoding the encoded transmit-buffer bytes of a valid
frame preserves the identifier value, the extended/standard tag, the
length and the first `length` payload bytes; the remote-request flag is
preserved exactly when the frame is extended or not remote-request — for a
standard remote frame the encoder places RTR in the DLC byte while the
decoder reads standard RTR from the SRR bit of the second identifier byte,
so the flag is lost. -/
theorem mcp2515_codec_roundtrip (f : CanFrame) (hf : ValidFrame f) :
    (mcp2515_rxb_frame (0 :: mcp2515_set_txbuf f)).can_id &&& CAN_EFF_MASK
        = f.can_id &&& CAN_EFF_MASK ∧
    (mcp2515_rxb_frame (0 :: mcp2515_set_txbuf f)).can_id &&& CAN_EFF_FLAG
        = f.can_id &&& CAN_EFF_FLAG ∧
    (mcp2515_rxb_frame (0 :: mcp2515_set_txbuf f)).can_dlc = f.can_dlc ∧
    (mcp2515_rxb_frame (0 :: mcp2515_set_txbuf f)).data = f.data.take f.can_dlc ∧
    (f.can_id &&& CAN_EFF_FLAG ≠ 0 ∨ f.can_id &&& CAN_RTR_FLAG = 0 →
      (mcp2515_rxb_frame (0 :: mcp2515_set_txbuf f)).can_id &&& CAN_RTR_FLAG
        = f.can_id &&& CAN_RTR_FLAG) ∧
    (f.can_id &&& CAN_EFF_FLAG = 0 →
      (mcp2515_rxb_frame (0 :: mcp2515_set_txbuf f)).can_id &&& CAN_RTR_FLAG = 0) := by
  obtain ⟨hlt, hdlc, hlen, hsff⟩ := hf
  rw [CAN_EFF_FLAG, CAN_EFF_MASK, CAN_SFF_MASK] at hsff
  simp only [CAN_EFF_FLAG, CAN_RTR_FLAG, CAN_EFF_MASK]
  have h8f : ((8 : Nat) = 0) = False := by simp
  have h64f : ((64 : Nat) = 0) = False := by simp
  by_cases heff : f.can_id &&& 2147483648 = 0
  · have ce : (f.can_id &&& 2147483648 ≠ 0) = False := by simp [heff]
    by_cases hrtr : f.can_id &&& 1073741824 = 0
    · -- standard data frame
      have cr : (f.can_id &&& 1073741824 ≠ 0) = False := by simp [hrtr]
      simp only [mcp2515_set_txbuf, CAN_EFF_FLAG, CAN_RTR_FLAG, ce, cr,
        if_false, if_true]
      simp only [mcp2515_rxb_frame, List.cons_append, List.nil_append,
        List.getD_cons_succ, List.getD_cons_zero, RXBSIDL_IDE, RXBSIDL_SRR,
        RXBDLC_RTR, CAN_EFF_FLAG, CAN_RTR_FLAG]
      simp only [std_sidl_ide, std_sidl_srr]
      simp only [ne_eq, eq_self_iff_true, not_true_eq_false, not_false_eq_true,
        if_true, if_false, reduceIte]
      rw [stdRoundtripId, and_sff_eq_and_eff f.can_id (hsff heff),
        dlc_readback f.can_dlc hdlc]
      rw [get_can_dlc, Nat.min_eq_left hdlc]
      refine ⟨?_, ?_, rfl, ?_, ?_, ?_⟩
      · rw [Nat.and_assoc, cMM]
      · rw [Nat.and_assoc, cME, Nat.and_zero, heff]
      · simp [List.take_take]
      · intro _
        rw [Nat.and_assoc, cMR, Nat.and_zero, hrtr]
      · intro _
        rw [Nat.and_assoc, cMR, Nat.and_zero]
    · -- standard remote frame: encode never sets the SRR bit
      have cr : (f.can_id &&& 1073741824 ≠ 0) = True := by simp [hrtr]
      simp only [mcp2515_set_txbuf, CAN_EFF_FLAG, CAN_RTR_FLAG, ce, cr,
        if_false, if_true]
      simp only [mcp2515_rxb_frame, List.cons_append, List.nil_append,
        List.getD_cons_succ, List.getD_cons_zero, RXBSIDL_IDE, RXBSIDL_SRR,
        RXBDLC_RTR, CAN_EFF_FLAG, CAN_RTR_FLAG]
      simp only [std_sidl_ide, std_sidl_srr]
      simp only [ne_eq, eq_self_iff_true, not_true_eq_false, not_false_eq_true,
        if_true, if_false, reduceIte]
      rw [stdRoundtripId, and_sff_eq_and_eff f.can_id (hsff heff),
        dlc_readback_rtr f.can_dlc hdlc]
      rw [get_can_dlc, Nat.min_eq_left hdlc]
      refine ⟨?_, ?_, rfl, ?_, ?_, ?_⟩
      · rw [Nat.and_assoc, cMM]
      · rw [Nat.and_assoc, cME, Nat.and_zero, heff]
      · simp [List.take_take]
      · intro h
        rcases h with h | h
        · exact h.elim
        · exact absurd h hrtr
      · intro _
        rw [Nat.and_assoc, cMR, Nat.and_zero]
  · have ce : (f.can_id &&& 2147483648 ≠ 0) = True := by simp [heff]
    by_cases hrtr : f.can_id &&& 1073741824 = 0
    · -- extended data frame
      have cr : (f.can_id &&& 1073741824 ≠ 0) = False := by simp [hrtr]
      simp only [mcp2515_set_txbuf, CAN_EFF_FLAG, CAN_RTR_FLAG, ce, cr,
        if_false, if_true]
      simp only [mcp2515_rxb_frame, List.cons_append, List.nil_append,
        List.getD_cons_succ, List.getD_cons_zero, RXBSIDL_IDE, RXBSIDL_SRR,
        RXBDLC_RTR, CAN_EFF_FLAG, CAN_RTR_FLAG]
      simp only [ide_bit_set, dlc_no_rtr_bit f.can_dlc hdlc]
      simp only [ne_eq, h8f, h64f, eq_self_iff_true, not_true_eq_false,
        not_false_eq_true, if_true, if_false, reduceIte]
      rw [extRoundtripId, dlc_readback f.can_dlc hdlc]
      rw [get_can_dlc, Nat.min_eq_left hdlc]
      refine ⟨?_, ?_, rfl, ?_, ?_, ?_⟩
      · simp only [Nat.and_distrib_right, Nat.and_assoc, cMM, cEM, Nat.or_zero]
      · rw [and_eff_of_ne heff]
        simp only [Nat.and_distrib_right, Nat.and_assoc, cME, cEE, Nat.and_zero,
          Nat.zero_or]
      · simp [List.take_take]
      · intro _
        rw [hrtr]
        simp only [Nat.and_distrib_right, Nat.and_assoc, cMR, cER, Nat.and_zero,
          Nat.or_zero]
      · intro h
        exact absurd h heff
    · -- extended remote frame
      have cr : (f.can_id &&& 1073741824 ≠ 0) = True := by simp [hrtr]
      simp only [mcp2515_set_txbuf, CAN_EFF_FLAG, CAN_RTR_FLAG, ce, cr,
        if_false, if_true]
      simp only [mcp2515_rxb_frame, List.cons_append, List.nil_append,
        List.getD_cons_succ, List.getD_cons_zero, RXBSIDL_IDE, RXBSIDL_SRR,
        RXBDLC_RTR, CAN_EFF_FLAG, CAN_RTR_FLAG]
      simp only [ide_bit_set, dlc_rtr_bit f.can_dlc hdlc]
      simp only [ne_eq, h8f, h64f, eq_self_iff_true, not_true_eq_false,
        not_false_eq_true, if_true, if_false, reduceIte]
      rw [extRoundtripId, dlc_readback_rtr f.can_dlc hdlc]
      rw [get_can_dlc, Nat.min_eq_left hdlc]
      refine ⟨?_, ?_, rfl, ?_, ?_, ?_⟩
      · simp only [Nat.and_distrib_right, Nat.and_assoc, cMM, cEM, cRM,
          Nat.or_zero]
      · rw [and_eff_of_ne heff]
        simp only [Nat.and_distrib_right, Nat.and_assoc, cME, cEE, cRE,
          Nat.and_zero, Nat.zero_or, Nat.or_zero]
      · simp [List.take_take]
      · intro _
        rw [and_rtr_of_ne hrtr]
        simp only [Nat.and_distrib_right, Nat.and_assoc, cMR, cER, cRR,
          Nat.and_zero, Nat.zero_or, Nat.or_zero]
      · intro h
        exact absurd h heff

/-! ## Sequencer invariant: at most one outstanding command -/

theorem completeCmd_shape (c : Cmd) (ci e : Nat) (ok : Bool) (buf : List Nat)
    (s : DevState) :
    (∃ d, (completeCmd c ci e ok buf s).inflight = s.inflight ++ [d] ∧
          (completeCmd c ci e ok buf s).busy = s.busy) ∨
    ((completeCmd c ci e ok buf s).inflight = s.inflight ∧
     (completeCmd c ci e ok buf s).busy = false) := by
  cases c
  case readFlags =>
    simp only [completeCmd, mcp2515_read_flags_complete, mcp2515_read_rxb0,
      mcp2515_read_rxb1, mcp2515_clear_canintf, mcp2515_load_txb0,
      mcp2515_read_flags, mcp2515_spi_async]
    split_ifs <;> simp
  case readRxb0 =>
    simp only [completeCmd, mcp2515_read_rxb0_complete, mcp2515_read_rxb_complete,
      mcp2515_transmit_or_read_flags, mcp2515_read_rxb1, mcp2515_load_txb0,
      mcp2515_read_flags, mcp2515_spi_async]
    split_ifs <;> simp
  case readRxb1 =>
    simp only [completeCmd, mcp2515_read_rxb1_complete, mcp2515_read_rxb_complete,
      mcp2515_transmit_or_read_flags, mcp2515_load_txb0, mcp2515_read_flags,
      mcp2515_spi_async]
    split_ifs <;> simp
  case clearCanintf m =>
    rcases hskb : s.skb with _ | f <;>
      simp only [completeCmd, mcp2515_clear_canintf_complete, hskb,
        mcp2515_clear_eflg, mcp2515_read_flags, mcp2515_spi_async] <;>
      split_ifs <;> simp
  case clearEflg m =>
    simp only [completeCmd, mcp2515_clear_eflg_complete, mcp2515_read_flags,
      mcp2515_spi_async]
    split_ifs <;> simp
  case loadTxb0 =>
    simp only [completeCmd, mcp2515_load_txb0_complete, mcp2515_rts_txb0,
      mcp2515_spi_async]
    simp
  case rtsTxb0 =>
    simp only [completeCmd, mcp2515_rts_txb0_complete, mcp2515_read_flags,
      mcp2515_spi_async]
    simp

theorem inv_init : SeqInv initState := by
  constructor <;> simp [initState]

theorem inv_step {s t : DevState} (hinv : SeqInv s) (hst : Step s t) : SeqInv t := by
  obtain ⟨hlen, hidle⟩ := hinv
  cases hst
  case irq =>
    unfold mcp2515_interrupt
    split_ifs with hb
    · exact ⟨hlen, by simp [hb]⟩
    · rw [hidle (by simpa using hb)]
      constructor <;> simp [mcp2515_read_flags, mcp2515_spi_async]
  case xmit f =>
    unfold mcp2515_start_xmit
    dsimp only
    split_ifs with hb
    · exact ⟨by simpa using hlen, by simp [hb]⟩
    · rw [show s.inflight = [] from hidle (by simpa using hb)] at hlen ⊢
      constructor <;> simp [mcp2515_load_txb0, mcp2515_spi_async]
  case complete c rest ci e ok buf hcan hefl hinfl =>
    have hbusy : s.busy = true := by
      by_contra hb
      rw [hidle (Bool.eq_false_iff.mpr hb)] at hinfl
      exact List.noConfusion hinfl
    have hrest : rest = [] := by
      rw [hinfl] at hlen
      simpa using hlen
    subst hrest
    rcases completeCmd_shape c ci e ok buf { s with inflight := [] } with
      ⟨d, hin, hbu⟩ | ⟨hin, hbu⟩
    · refine ⟨by simp [hin], ?_⟩
      intro hb
      rw [hbu] at hb
      simp [hbusy] at hb
    · exact ⟨by simp [hin], fun _ => by simpa using hin⟩

theorem reachable_SeqInv {s : DevState} (h : Reachable s) : SeqInv s := by
  induction h with
  | init => exact inv_init
  | step hr hst ih => exact inv_step ih hst


/-! ## Claim theorems on the sequencer -/

/-- C1: for every interleaving of interrupt arrivals, frame submissions and
command completions, at most one command is outstanding on the SPI channel,
and the channel is empty whenever `busy` is clear (so a command is issued
only by the producer that claims `busy` or from a completion callback). -/
theorem at_most_one_command_outstanding (s : DevState) (h : Reachable s) :
    s.inflight.length ≤ 1 ∧ (s.busy = false → s.inflight = []) :=
  reachable_SeqInv h

/-- C2 (amended): `mcp2515_start_xmit` always returns NETDEV_TX_OK, never
a busy rejection; when called while `busy` it stops the queue, stores the
frame into the active-transmit slot (overwriting it) and sets the
transmit-pending flag. -/
theorem start_xmit_busy_accepts_and_stores (s : DevState) (f : CanFrame) :
    (mcp2515_start_xmit f s).1 = NetdevTxStatus.tx_ok ∧
    (s.busy = true →
      (mcp2515_start_xmit f s).2 =
        { s with queueStopped := true, skb := some f, transmit := true }) := by
  unfold mcp2515_start_xmit
  dsimp only
  split_ifs with hb
  · exact ⟨rfl, fun _ => rfl⟩
  · exact ⟨rfl, fun h => absurd h hb⟩

/-- C4 (amended): a producer that finds the machine idle claims `busy` and
issues its first command — the status+error read for an interrupt arrival,
but the load-transmit-buffer command for a frame submission; a producer
arriving while busy issues nothing and only records its pending work (the
submission also stores the frame and stops the queue). -/
theorem producer_entry_commands (s : DevState) (f : CanFrame) :
    (s.busy = false →
      mcp2515_interrupt s =
        mcp2515_spi_async Cmd.readFlags { s with busy := true } ∧
      (mcp2515_start_xmit f s).2 =
        mcp2515_spi_async Cmd.loadTxb0
          { s with queueStopped := true, skb := some f, busy := true }) ∧
    (s.busy = true →
      mcp2515_interrupt s = { s with interrupt := true } ∧
      (mcp2515_start_xmit f s).2 =
        { s with queueStopped := true, skb := some f, transmit := true }) := by
  constructor
  · intro hb
    unfold mcp2515_interrupt mcp2515_start_xmit
    rw [hb]
    dsimp only
    exact ⟨rfl, rfl⟩
  · intro hb
    unfold mcp2515_interrupt mcp2515_start_xmit
    rw [hb]
    dsimp only
    exact ⟨rfl, rfl⟩

/-- C5: after the flags read completes the next command is chosen in
priority order RX0IF, RX1IF, any other status bit (clear-status with mask
`canintf` minus the two receive bits), transmit-pending (load tx buffer),
interrupt-pending (re-read flags), else clear `busy` — and across all
steps of the system only that last branch of the flags completion clears
`busy`. -/
theorem read_flags_complete_priority (s : DevState) (ci e : Nat) :
    ((ci &&& CANINTF_RX0IF ≠ 0 →
      mcp2515_read_flags_complete ci e s =
        mcp2515_spi_async Cmd.readRxb0 { s with canintf := ci, eflg := e }) ∧
    (ci &&& CANINTF_RX0IF = 0 → ci &&& CANINTF_RX1IF ≠ 0 →
      mcp2515_read_flags_complete ci e s =
        mcp2515_spi_async Cmd.readRxb1 { s with canintf := ci, eflg := e }) ∧
    (ci &&& CANINTF_RX0IF = 0 → ci &&& CANINTF_RX1IF = 0 → ci ≠ 0 →
      mcp2515_read_flags_complete ci e s =
        mcp2515_spi_async
          (Cmd.clearCanintf (ci &&& (0xff ^^^ (CANINTF_RX0IF ||| CANINTF_RX1IF))))
          { s with canintf := ci, eflg := e }) ∧
    (ci = 0 → s.transmit = true →
      mcp2515_read_flags_complete ci e s =
        mcp2515_spi_async Cmd.loadTxb0
          { s with canintf := ci, eflg := e, transmit := false }) ∧
    (ci = 0 → s.transmit = false → s.interrupt = true →
      mcp2515_read_flags_complete ci e s =
        mcp2515_spi_async Cmd.readFlags
          { s with canintf := ci, eflg := e, interrupt := false }) ∧
    (ci = 0 → s.transmit = false → s.interrupt = false →
      mcp2515_read_flags_complete ci e s =
        { s with canintf := ci, eflg := e, busy := false })) ∧
    (∀ t : DevState, Step s t → s.busy = true → t.busy = false →
      ∃ rest, s.inflight = Cmd.readFlags :: rest ∧ t.inflight = rest ∧
        t.canintf = 0 ∧ t.transmit = false ∧ t.interrupt = false) := by
  constructor
  · refine ⟨?_, ?_, ?_, ?_, ?_, ?_⟩
    · intro h1
      unfold mcp2515_read_flags_complete
      rw [if_pos h1]
      rfl
    · intro h1 h2
      unfold mcp2515_read_flags_complete
      rw [if_neg (by simpa using h1), if_pos h2]
      rfl
    · intro h1 h2 h3
      unfold mcp2515_read_flags_complete
      rw [if_neg (by simpa using h1), if_neg (by simpa using h2), if_pos h3]
      rfl
    · intro h1 h2
      subst h1
      unfold mcp2515_read_flags_complete
      rw [if_neg (by simp [CANINTF_RX0IF]), if_neg (by simp [CANINTF_RX1IF]),
        if_neg (by simp)]
      dsimp only
      rw [if_pos h2]
      rfl
    · intro h1 h2 h3
      subst h1
      unfold mcp2515_read_flags_complete
      rw [if_neg (by simp [CANINTF_RX0IF]), if_neg (by simp [CANINTF_RX1IF]),
        if_neg (by simp)]
      dsimp only
      rw [if_neg (by simp [h2]), if_pos h3]
      rfl
    · intro h1 h2 h3
      subst h1
      unfold mcp2515_read_flags_complete
      rw [if_neg (by simp [CANINTF_RX0IF]), if_neg (by simp [CANINTF_RX1IF]),
        if_neg (by simp)]
      dsimp only
      rw [if_neg (by simp [h2]), if_neg (by simp [h3])]
  · intro t hst hb hb2
    cases hst
    case irq =>
      simp [mcp2515_interrupt, hb, mcp2515_read_flags, mcp2515_spi_async] at hb2
    case xmit f =>
      simp [mcp2515_start_xmit, hb, mcp2515_load_txb0, mcp2515_spi_async] at hb2
    case complete c rest ci2 e2 ok buf hcan hefl hinfl =>
      cases c
      case readRxb0 =>
        simp [completeCmd, mcp2515_read_rxb0_complete, mcp2515_read_rxb_complete,
          mcp2515_transmit_or_read_flags, mcp2515_read_rxb1, mcp2515_load_txb0,
          mcp2515_read_flags, mcp2515_spi_async, hb] at hb2
        try (split_ifs at hb2 <;> simp [hb] at hb2)
      case readRxb1 =>
        simp [completeCmd, mcp2515_read_rxb1_complete, mcp2515_read_rxb_complete,
          mcp2515_transmit_or_read_flags, mcp2515_load_txb0,
          mcp2515_read_flags, mcp2515_spi_async, hb] at hb2
        try (split_ifs at hb2 <;> simp [hb] at hb2)
      case clearCanintf m =>
        rcases hskb : s.skb with _ | f <;>
          simp [completeCmd, mcp2515_clear_canintf_complete, hskb,
            mcp2515_clear_eflg, mcp2515_read_flags, mcp2515_spi_async, hb] at hb2 <;>
          try (split_ifs at hb2 <;> simp [hb] at hb2)
      case clearEflg m =>
        simp [completeCmd, mcp2515_clear_eflg_complete, mcp2515_read_flags,
          mcp2515_spi_async, hb] at hb2
        try (split_ifs at hb2 <;> simp [hb] at hb2)
      case loadTxb0 =>
        simp [completeCmd, mcp2515_load_txb0_complete, mcp2515_rts_txb0,
          mcp2515_spi_async, hb] at hb2
      case rtsTxb0 =>
        simp [completeCmd, mcp2515_rts_txb0_complete, mcp2515_read_flags,
          mcp2515_spi_async, hb] at hb2
      case readFlags =>
        refine ⟨rest, hinfl, ?_⟩
        unfold completeCmd mcp2515_read_flags_complete at hb2 ⊢
        dsimp only at hb2 ⊢
        split_ifs at hb2 ⊢ with h1 h2 h3 h4 h5 <;>
          simp [mcp2515_read_rxb0, mcp2515_read_rxb1, mcp2515_clear_canintf,
            mcp2515_load_txb0, mcp2515_read_flags, mcp2515_spi_async, hb] at hb2 ⊢
        exact ⟨by omega, by simpa using h4, by simpa using h5⟩

/-- C6 (amended): transmit completion is reported in the clear-status
completion callback: when the TX0IF bit is set in the flags snapshot and a
frame occupies the slot, the callback counts the packet and its bytes,
reports the echo upward exactly once, empties the slot, wakes the queue,
and still issues the next command of the chain. -/
theorem tx_complete_reported_in_clear_canintf (s : DevState) (f : CanFrame)
    (hskb : s.skb = some f) (htx : s.canintf &&& CANINTF_TX0IF ≠ 0) :
    (mcp2515_clear_canintf_complete s).echoed = s.echoed ++ [f] ∧
    (mcp2515_clear_canintf_complete s).stats.tx_packets = s.stats.tx_packets + 1 ∧
    (mcp2515_clear_canintf_complete s).stats.tx_bytes = s.stats.tx_bytes + f.can_dlc ∧
    (mcp2515_clear_canintf_complete s).skb = none ∧
    (mcp2515_clear_canintf_complete s).queueStopped = false ∧
    (∃ c, (mcp2515_clear_canintf_complete s).inflight = s.inflight ++ [c]) := by
  unfold mcp2515_clear_canintf_complete
  rw [if_pos htx, hskb]
  dsimp only
  split_ifs <;>
    simp [mcp2515_clear_eflg, mcp2515_read_flags, mcp2515_spi_async]

/-- C8: after the clear-error command completes, the receive-overflow
counter is incremented exactly once when either overflow bit (or both) is
set in the EFLG snapshot, is unchanged otherwise, and the machine always
re-reads the flags. -/
theorem overflow_counted_once (s : DevState) :
    (s.eflg &&& (EFLG_RX0OVR ||| EFLG_RX1OVR) ≠ 0 →
      (mcp2515_clear_eflg_complete s).stats.rx_over_errors =
        s.stats.rx_over_errors + 1) ∧
    (s.eflg &&& (EFLG_RX0OVR ||| EFLG_RX1OVR) = 0 →
      (mcp2515_clear_eflg_complete s).stats.rx_over_errors =
        s.stats.rx_over_errors) ∧
    (mcp2515_clear_eflg_complete s).inflight = s.inflight ++ [Cmd.readFlags] := by
  unfold mcp2515_clear_eflg_complete
  split_ifs with h <;>
    simp [h, mcp2515_read_flags, mcp2515_spi_async]

/-- C9: if skb allocation fails while preparing a receive delivery, the
frame is dropped (no delivery upward), the drop counter is incremented,
the packet counter is unchanged, and the command chain still issues its
next command, for both receive-buffer completions. -/
theorem alloc_failure_drops_and_continues (s : DevState) (buf : List Nat) :
    ((mcp2515_read_rxb0_complete false buf s).delivered = s.delivered ∧
     (mcp2515_read_rxb0_complete false buf s).stats.rx_dropped =
       s.stats.rx_dropped + 1 ∧
     (mcp2515_read_rxb0_complete false buf s).stats.rx_packets =
       s.stats.rx_packets ∧
     ∃ c, (mcp2515_read_rxb0_complete false buf s).inflight =
       s.inflight ++ [c]) ∧
    ((mcp2515_read_rxb1_complete false buf s).delivered = s.delivered ∧
     (mcp2515_read_rxb1_complete false buf s).stats.rx_dropped =
       s.stats.rx_dropped + 1 ∧
     (mcp2515_read_rxb1_complete false buf s).stats.rx_packets =
       s.stats.rx_packets ∧
     ∃ c, (mcp2515_read_rxb1_complete false buf s).inflight =
       s.inflight ++ [c]) := by
  constructor <;>
  · simp only [mcp2515_read_rxb0_complete, mcp2515_read_rxb1_complete,
      mcp2515_read_rxb_complete, mcp2515_transmit_or_read_flags,
      mcp2515_read_rxb1, mcp2515_load_txb0, mcp2515_read_flags,
      mcp2515_spi_async, Bool.not_false, if_true]
    split_ifs <;> simp

/-- C10: when the clear-status completion runs with TX0IF set but an empty
transmit slot, no counters change and nothing is echoed upward, yet the
slot stays empty and the queue is still woken. -/
theorem tx0if_with_empty_slot (s : DevState) (hskb : s.skb = none)
    (htx : s.canintf &&& CANINTF_TX0IF ≠ 0) :
    (mcp2515_clear_canintf_complete s).stats = s.stats ∧
    (mcp2515_clear_canintf_complete s).echoed = s.echoed ∧
    (mcp2515_clear_canintf_complete s).delivered = s.delivered ∧
    (mcp2515_clear_canintf_complete s).skb = none ∧
    (mcp2515_clear_canintf_complete s).queueStopped = false := by
  unfold mcp2515_clear_canintf_complete
  rw [if_pos htx, hskb]
  dsimp only
  split_ifs <;>
    simp [mcp2515_clear_eflg, mcp2515_read_flags, mcp2515_spi_async]


/-! ## Counterexamples and witnesses -/

/-- C2 counterexample: submitting while busy (here: busy because an
interrupt chain is running) is not rejected — the call returns
NETDEV_TX_OK, never NETDEV_TX_BUSY — and it does mutate the
active-transmit slot. -/
theorem start_xmit_busy_not_rejected_cex :
    Reachable (mcp2515_interrupt initState) ∧
    (mcp2515_interrupt initState).busy = true ∧
    (mcp2515_start_xmit sampleFrame (mcp2515_interrupt initState)).1 ≠
      NetdevTxStatus.tx_busy ∧
    (mcp2515_start_xmit sampleFrame (mcp2515_interrupt initState)).2.skb ≠
      (mcp2515_interrupt initState).skb :=
  ⟨Reachable.step Reachable.init (Step.irq initState), by decide⟩

/-- C2 witness: the amended theorem evaluated at the busy state reached by
one interrupt. -/
theorem start_xmit_busy_accepts_witness :
    (mcp2515_start_xmit sampleFrame (mcp2515_interrupt initState)).1 =
      NetdevTxStatus.tx_ok ∧
    (mcp2515_start_xmit sampleFrame (mcp2515_interrupt initState)).2 =
      { (mcp2515_interrupt initState) with
        queueStopped := true
        skb := some sampleFrame
        transmit := true } :=
  ⟨(start_xmit_busy_accepts_and_stores (mcp2515_interrupt initState)
      sampleFrame).1,
   (start_xmit_busy_accepts_and_stores (mcp2515_interrupt initState)
      sampleFrame).2 (by decide)⟩

/-- C3 counterexample: a valid standard remote frame round-trips with its
remote-request flag lost. -/
theorem codec_roundtrip_std_rtr_cex :
    ValidFrame stdRemoteFrame ∧
    stdRemoteFrame.can_id &&& CAN_RTR_FLAG ≠ 0 ∧
    (mcp2515_rxb_frame (0 :: mcp2515_set_txbuf stdRemoteFrame)).can_id &&&
      CAN_RTR_FLAG = 0 := by decide

/-- C3 witness: the round-trip theorem evaluated on an extended remote
frame, every field preserved including the remote-request flag. -/
theorem mcp2515_codec_roundtrip_witness :
    (mcp2515_rxb_frame (0 :: mcp2515_set_txbuf extRemoteFrame)).can_id &&&
      CAN_EFF_MASK = extRemoteFrame.can_id &&& CAN_EFF_MASK ∧
    (mcp2515_rxb_frame (0 :: mcp2515_set_txbuf extRemoteFrame)).can_id &&&
      CAN_EFF_FLAG = extRemoteFrame.can_id &&& CAN_EFF_FLAG ∧
    (mcp2515_rxb_frame (0 :: mcp2515_set_txbuf extRemoteFrame)).can_dlc =
      extRemoteFrame.can_dlc ∧
    (mcp2515_rxb_frame (0 :: mcp2515_set_txbuf extRemoteFrame)).data =
      extRemoteFrame.data.take extRemoteFrame.can_dlc ∧
    (mcp2515_rxb_frame (0 :: mcp2515_set_txbuf extRemoteFrame)).can_id &&&
      CAN_RTR_FLAG = extRemoteFrame.can_id &&& CAN_RTR_FLAG :=
  ⟨(mcp2515_codec_roundtrip extRemoteFrame (by decide)).1,
   (mcp2515_codec_roundtrip extRemoteFrame (by decide)).2.1,
   (mcp2515_codec_roundtrip extRemoteFrame (by decide)).2.2.1,
   (mcp2515_codec_roundtrip extRemoteFrame (by decide)).2.2.2.1,
   (mcp2515_codec_roundtrip extRemoteFrame (by decide)).2.2.2.2.1
     (Or.inl (by decide))⟩

/-- C4 counterexample: a frame submission that finds the machine idle
issues the load-transmit-buffer command, not the status+error read. -/
theorem xmit_entry_not_flags_read_cex :
    initState.busy = false ∧
    (mcp2515_start_xmit sampleFrame initState).2.inflight = [Cmd.loadTxb0] ∧
    Cmd.loadTxb0 ≠ Cmd.readFlags := by decide

/-- C4 witness: the amended entry theorem evaluated at the idle initial
state. -/
theorem producer_entry_commands_witness :
    mcp2515_interrupt initState =
      mcp2515_spi_async Cmd.readFlags { initState with busy := true } ∧
    (mcp2515_start_xmit sampleFrame initState).2 =
      mcp2515_spi_async Cmd.loadTxb0
        { initState with
          queueStopped := true
          skb := some sampleFrame
          busy := true } :=
  (producer_entry_commands initState sampleFrame).1 rfl

/-- C5 witness: a flags completion reporting only RX0IF issues the
read-receive-buffer-0 command. -/
theorem read_flags_complete_priority_witness :
    mcp2515_read_flags_complete 1 0 (mcp2515_interrupt initState) =
      mcp2515_spi_async Cmd.readRxb0
        { (mcp2515_interrupt initState) with canintf := 1, eflg := 0 } :=
  ((read_flags_complete_priority (mcp2515_interrupt initState) 1 0).1).1
    (by decide)

/-- C6 counterexample: the ReadingFlags-decode step itself, run with the
transmit-complete bit set and a frame in the slot, reports nothing upward,
keeps the slot occupied, and merely issues the clear-status command — the
reporting happens only in that command's completion. -/
theorem tx_complete_not_in_flags_decode_cex :
    (mcp2515_read_flags_complete CANINTF_TX0IF 0 stateBusyTx).echoed = [] ∧
    (mcp2515_read_flags_complete CANINTF_TX0IF 0 stateBusyTx).skb =
      some sampleFrame ∧
    (mcp2515_read_flags_complete CANINTF_TX0IF 0 stateBusyTx).stats.tx_packets
      = 0 ∧
    (mcp2515_read_flags_complete CANINTF_TX0IF 0 stateBusyTx).inflight =
      [Cmd.clearCanintf CANINTF_TX0IF] := by decide

/-- C6 witness: the amended theorem evaluated at a transmit-complete
snapshot with the sent frame still in the slot. -/
theorem tx_complete_reported_witness :
    (mcp2515_clear_canintf_complete stateTxDone).echoed =
      stateTxDone.echoed ++ [sampleFrame] ∧
    (mcp2515_clear_canintf_complete stateTxDone).stats.tx_packets =
      stateTxDone.stats.tx_packets + 1 ∧
    (mcp2515_clear_canintf_complete stateTxDone).stats.tx_bytes =
      stateTxDone.stats.tx_bytes + sampleFrame.can_dlc ∧
    (mcp2515_clear_canintf_complete stateTxDone).skb = none ∧
    (mcp2515_clear_canintf_complete stateTxDone).queueStopped = false ∧
    (∃ c, (mcp2515_clear_canintf_complete stateTxDone).inflight =
      stateTxDone.inflight ++ [c]) :=
  tx_complete_reported_in_clear_canintf stateTxDone sampleFrame rfl
    (by decide)

/-- C7 counterexample: for a standard remote frame the encoder leaves the
substitute-remote-request bit of the second identifier byte clear and puts
the remote-request bit in the length byte instead. -/
theorem std_rtr_srr_bit_cex :
    stdRemoteFrame.can_id &&& CAN_RTR_FLAG ≠ 0 ∧
    stdRemoteFrame.can_id &&& CAN_EFF_FLAG = 0 ∧
    (mcp2515_set_txbuf stdRemoteFrame).getD 1 0 &&& RXBSIDL_SRR = 0 ∧
    (mcp2515_set_txbuf stdRemoteFrame).getD 4 0 &&& RXBDLC_RTR ≠ 0 := by
  decide

/-- C7 (amended): for every remote-request frame the encoder sets the RTR
bit of the DLC byte, extended or standard alike, and for standard frames
it never sets the substitute-remote-request bit of the second identifier
byte — so the encoding matches the decode rule only for extended frames. -/
theorem rtr_encoded_in_dlc_byte (f : CanFrame) (hdlc : f.can_dlc ≤ 8)
    (hrtr : f.can_id &&& CAN_RTR_FLAG ≠ 0) :
    (mcp2515_set_txbuf f).getD 4 0 &&& RXBDLC_RTR = RXBDLC_RTR ∧
    (f.can_id &&& CAN_EFF_FLAG = 0 →
      (mcp2515_set_txbuf f).getD 1 0 &&& RXBSIDL_SRR = 0) := by
  have cr : (f.can_id &&& CAN_RTR_FLAG ≠ 0) = True := by simp [hrtr]
  by_cases heff : f.can_id &&& CAN_EFF_FLAG = 0
  · have ce : (f.can_id &&& CAN_EFF_FLAG ≠ 0) = False := by simp [heff]
    simp only [mcp2515_set_txbuf, ce, cr, if_false, if_true, List.cons_append,
      List.nil_append, List.getD_cons_succ, List.getD_cons_zero, RXBDLC_RTR,
      RXBSIDL_SRR]
    exact ⟨dlc_rtr_bit f.can_dlc hdlc, fun _ => std_sidl_srr f.can_id⟩
  · have ce : (f.can_id &&& CAN_EFF_FLAG ≠ 0) = True := by simp [heff]
    simp only [mcp2515_set_txbuf, ce, cr, if_false, if_true, List.cons_append,
      List.nil_append, List.getD_cons_succ, List.getD_cons_zero, RXBDLC_RTR]
    exact ⟨dlc_rtr_bit f.can_dlc hdlc, fun h => absurd h heff⟩

/-- C7 witness: the amended encoding theorem evaluated at the standard
remote frame. -/
theorem rtr_encoded_in_dlc_byte_witness :
    (mcp2515_set_txbuf stdRemoteFrame).getD 4 0 &&& RXBDLC_RTR =
      RXBDLC_RTR ∧
    (mcp2515_set_txbuf stdRemoteFrame).getD 1 0 &&& RXBSIDL_SRR = 0 :=
  ⟨(rtr_encoded_in_dlc_byte stdRemoteFrame (by decide) (by decide)).1,
   (rtr_encoded_in_dlc_byte stdRemoteFrame (by decide) (by decide)).2
     (by decide)⟩

/-- C1 witness: the invariant evaluated at the state reached by one
interrupt arrival. -/
theorem at_most_one_command_outstanding_witness :
    Reachable (mcp2515_interrupt initState) ∧
    ((mcp2515_interrupt initState).inflight.length ≤ 1 ∧
      ((mcp2515_interrupt initState).busy = false →
        (mcp2515_interrupt initState).inflight = [])) :=
  ⟨Reachable.step Reachable.init (Step.irq initState),
   at_most_one_command_outstanding (mcp2515_interrupt initState)
     (Reachable.step Reachable.init (Step.irq initState))⟩

/-- C8 witness: with both overflow bits set in the snapshot the counter is
incremented exactly once and the flags are re-read. -/
theorem overflow_counted_once_witness :
    (mcp2515_clear_eflg_complete stateBothOvr).stats.rx_over_errors =
      stateBothOvr.stats.rx_over_errors + 1 ∧
    (mcp2515_clear_eflg_complete stateBothOvr).inflight =
      stateBothOvr.inflight ++ [Cmd.readFlags] :=
  ⟨(overflow_counted_once stateBothOvr).1 (by decide),
   (overflow_counted_once stateBothOvr).2.2⟩

/-- C10 witness: the empty-slot clear-status completion at a concrete
stopped-queue context. -/
theorem tx0if_with_empty_slot_witness :
    (mcp2515_clear_canintf_complete stateTxDoneNoSkb).stats =
      stateTxDoneNoSkb.stats ∧
    (mcp2515_clear_canintf_complete stateTxDoneNoSkb).echoed =
      stateTxDoneNoSkb.echoed ∧
    (mcp2515_clear_canintf_complete stateTxDoneNoSkb).delivered =
      stateTxDoneNoSkb.delivered ∧
    (mcp2515_clear_canintf_complete stateTxDoneNoSkb).skb = none ∧
    (mcp2515_clear_canintf_complete stateTxDoneNoSkb).queueStopped = false :=
  tx0if_with_empty_slot stateTxDoneNoSkb rfl (by decide)
